import Mathlib

/-!
Verification of the RisiBank web-api integration library
(`src/RisiBank.ts`, `src/Constants.ts`, `src/UI.ts`).

The embedding models the `RisiBank` class as a pure state machine.
DOM objects are modelled by the attributes the library reads and writes:

* an iframe element is its identity (`nodeId`, a counter standing for DOM
  node identity), its `src` and its `data-hash` attribute;
* the overlay singleton container is its `style.display` plus its iframe
  child; the modal singleton adds `style.pointerEvents`, `style.left` and
  `style.top` (as integer pixel values);
* caller-supplied iframe containers form a map from a resolved element key
  (`Nat`) to the element's `style.display` and iframe child; a raw
  `container` option is `Option (Option Nat)`: `none` = field absent
  (`undefined`), `some none` = a selector that resolves to no element,
  `some (some k)` = an element or selector resolving to element `k`;
* `localStorage` (assumed available) is the value, if any, stored under the
  single key `risibank-userscript-selected-username`;
* the user callbacks `onSelectMedia` / `onCopyMedia` are opaque: they are
  identified by a `Nat` and their invocations are recorded in an event
  list (the router fires and forgets, so callbacks never mutate the
  state from inside the router);
* a media payload is opaque and carried as a `Nat` token.

`activate` returns the successor state paired with `some errorMessage`
when the TypeScript method throws: the successor state keeps every
mutation of `this` performed before the throw, which is exactly what the
in-place TypeScript code leaves behind.
-/

namespace RisiBankSpec

set_option maxRecDepth 100000

/-- `Constants.RISIBANK_URL` from `src/Constants.ts` (note the trailing slash). -/
def RISIBANK_URL : String := "https://risibank.fr/"

/-- An iframe element: DOM node identity, `src`, and `data-hash` attribute. -/
structure IFrameEl where
  nodeId : Nat
  src : String
  dataHash : String
deriving DecidableEq

/-- The overlay singleton container (`#risibank-overlay`): tracked style plus iframe child. -/
structure OverlayContainer where
  display : String
  iframe : Option IFrameEl
deriving DecidableEq

/-- The modal singleton container (`#risibank-modal`). -/
structure ModalContainer where
  display : String
  pointerEvents : String
  left : Int
  top : Int
  iframe : Option IFrameEl
deriving DecidableEq

/-- A caller-supplied iframe container. -/
structure CallerContainer where
  display : String
  iframe : Option IFrameEl
deriving DecidableEq

/-- Caller-supplied `ActivateOptions` before validation.  A field that the
caller did not set is `none`.  String enums stay strings so that invalid and
empty values can be passed; `container` is `none` (absent), `some none`
(unresolvable selector) or `some (some k)` (resolves to element `k`);
callbacks are opaque identifiers, `none` meaning the field is not a function. -/
structure RawOptions where
  type : Option String := none
  container : Option (Option Nat) := none
  openPosition : Option (Int × Int) := none
  theme : Option String := none
  mediaSize : Option String := none
  navbarSize : Option String := none
  defaultTab : Option String := none
  showNSFW : Option Bool := none
  allowUsernameSelection : Option Bool := none
  showCopyButton : Option Bool := none
  onSelectMedia : Option Nat := none
  onCopyMedia : Option Nat := none
deriving DecidableEq

/-- Options after the validation/defaulting prologue of `activate` has run:
this is the object stored in `this._integrations`. -/
structure NormOptions where
  type : String
  container : Option (Option Nat)
  openPosition : Option (Int × Int)
  theme : String
  mediaSize : String
  navbarSize : String
  defaultTab : String
  showNSFW : Bool
  allowUsernameSelection : Bool
  showCopyButton : Bool
  onSelectMedia : Nat
  onCopyMedia : Option Nat
deriving DecidableEq

/-- The mutable state of a `RisiBank` instance plus the pieces of the browser
environment it owns: the registry, the two singleton containers, the caller
containers it has written to, the id counter, the username, a fresh-node
counter for DOM identities, and the `localStorage` slot. -/
structure State where
  integrations : List (Nat × NormOptions)
  overlayContainer : Option OverlayContainer
  modalContainer : Option ModalContainer
  currentIntegrationId : Nat
  selectedUsername : Option String
  callerContainers : List (Nat × CallerContainer)
  freshNode : Nat
  storage : Option String
deriving DecidableEq

/-- JavaScript `v || d` for an optional string: `undefined` and the empty
string (the only falsy string) are replaced by the default. -/
def orDefault (v : Option String) (d : String) : String :=
  match v with
  | none => d
  | some s => if s = "" then d else s

/-- JavaScript template serialization of a boolean. -/
def boolStr (b : Bool) : String := if b then "true" else "false"

/-- The validation/defaulting prologue of `activate` (lines 92-155 of
`RisiBank.ts`), in source order: type, theme, mediaSize, navbarSize,
defaultTab, the three boolean defaults, then the `onSelectMedia` check.
Returns the first thrown error message, or the normalized options. -/
def validateOptions (raw : RawOptions) : Except String NormOptions :=
  let type := orDefault raw.type "iframe"
  if type ∈ (["iframe", "overlay", "modal"] : List String) then
    let theme := orDefault raw.theme "light"
    if theme ∈ (["light", "dark", "light-old", "dark-old"] : List String) then
      let mediaSize := orDefault raw.mediaSize "md"
      if mediaSize ∈ (["sm", "md", "lg"] : List String) then
        let navbarSize := orDefault raw.navbarSize "md"
        if navbarSize ∈ (["sm", "md", "lg"] : List String) then
          let defaultTab := orDefault raw.defaultTab "top"
          if defaultTab ∈ (["search", "fav", "hot", "top", "new", "rand"] : List String) then
            let showNSFW := raw.showNSFW.getD true
            let allowUsernameSelection := raw.allowUsernameSelection.getD true
            let showCopyButton := raw.showCopyButton.getD false
            match raw.onSelectMedia with
            | none =>
                Except.error "A callback must be specified for when a media is selected"
            | some cb =>
                Except.ok
                  { type := type
                    container := raw.container
                    openPosition := raw.openPosition
                    theme := theme
                    mediaSize := mediaSize
                    navbarSize := navbarSize
                    defaultTab := defaultTab
                    showNSFW := showNSFW
                    allowUsernameSelection := allowUsernameSelection
                    showCopyButton := showCopyButton
                    onSelectMedia := cb
                    onCopyMedia := raw.onCopyMedia }
          else Except.error "Unsupported default tab. Allowed values are search, fav, hot, top, new and rand"
        else Except.error "Unsupported navbar size. Allowed sizes are sm, md and lg"
      else Except.error "Unsupported media size. Allowed sizes are sm, md and lg"
    else Except.error "Unsupported theme"
  else Except.error "Invalid type"

/-- `_getEmbedUrl` (lines 233-251 of `RisiBank.ts`). -/
def getEmbedUrl (selectedUsername : Option String) (o : NormOptions)
    (integrationId : Nat) : String :=
  let url := RISIBANK_URL ++ "/embed?id=" ++ toString integrationId
  let url := url ++ "&theme=" ++ o.theme
  let url := url ++ "&allowUsernameSelection=" ++ boolStr o.allowUsernameSelection
  let url := url ++ "&showCopyButton=" ++ boolStr o.showCopyButton
  let url := url ++ "&mediaSize=" ++ o.mediaSize
  let url := url ++ "&navbarSize=" ++ o.navbarSize
  let url := url ++ "&defaultTab=" ++ o.defaultTab
  let url := url ++ "&showNSFW=" ++ boolStr o.showNSFW
  let url := if o.type ∈ (["overlay", "modal"] : List String) then
      url ++ "&showCloseButton=true"
    else url
  let url := if o.allowUsernameSelection then
      match selectedUsername with
      | some u => url ++ "&username=" ++ u
      | none => url
    else url
  url

/-- `_hashOptions` (lines 253-263): `JSON.stringify` of the ordered tuple
(theme, allowUsernameSelection, showCopyButton, mediaSize, navbarSize,
defaultTab, type). -/
def hashOptions (o : NormOptions) : String :=
  "[\"" ++ o.theme ++ "\"," ++ boolStr o.allowUsernameSelection ++ ","
    ++ boolStr o.showCopyButton ++ ",\"" ++ o.mediaSize ++ "\",\""
    ++ o.navbarSize ++ "\",\"" ++ o.defaultTab ++ "\",\"" ++ o.type ++ "\"]"

/-- `_populateContainerWithIFrame` (lines 265-291), acting on the tracked
attributes of the target container: if the container already holds an iframe
whose `data-hash` equals the hash of the options, only set
`style.display = 'block'`; otherwise clear the container and insert a fresh
iframe (a new DOM node) whose `src` is the embed URL, tagged with the hash.
Returns the container's new display, its new iframe child, and the updated
fresh-node counter. -/
def populateContainer (selectedUsername : Option String) (o : NormOptions)
    (display : String) (iframe : Option IFrameEl)
    (integrationId freshNode : Nat) : String × Option IFrameEl × Nat :=
  let containerHash := hashOptions o
  match iframe with
  | some prev =>
      if prev.dataHash = containerHash then
        ("block", some prev, freshNode)
      else
        (display,
         some { nodeId := freshNode
                src := getEmbedUrl selectedUsername o integrationId
                dataHash := containerHash },
         freshNode + 1)
  | none =>
      (display,
       some { nodeId := freshNode
              src := getEmbedUrl selectedUsername o integrationId
              dataHash := containerHash },
       freshNode + 1)

/-- The iframe element `populateContainer` freshly creates: node identity
`fresh`, source the embed URL, tagged with the options hash. -/
def freshIFrame (u : Option String) (o : NormOptions) (i fresh : Nat) : IFrameEl :=
  { nodeId := fresh, src := getEmbedUrl u o i, dataHash := hashOptions o }

/-- Association-list read of a JavaScript object property: the value at
key `i`, if present. -/
def lookupKey {A : Type} : Nat → List (Nat × A) → Option A
  | _, [] => none
  | i, (k, v) :: es => if k = i then some v else lookupKey i es

/-- Association-list `delete obj[i]`. -/
def eraseKey {A : Type} : Nat → List (Nat × A) → List (Nat × A)
  | _, [] => []
  | i, (k, v) :: es => if k = i then eraseKey i es else (k, v) :: eraseKey i es

/-- Set key `id` in the registry (JavaScript object property assignment). -/
def setKey (l : List (Nat × NormOptions)) (id : Nat) (o : NormOptions) :
    List (Nat × NormOptions) :=
  (id, o) :: eraseKey id l

/-- Look up a caller container by element key; an element the controller has
never written to is an empty container. -/
def getCaller (s : State) (k : Nat) : CallerContainer :=
  (lookupKey k s.callerContainers).getD { display := "", iframe := none }

/-- Write a caller container back. -/
def setCaller (l : List (Nat × CallerContainer)) (k : Nat) (c : CallerContainer) :
    List (Nat × CallerContainer) :=
  (k, c) :: eraseKey k l

/-- `activate` (lines 92-231 of `RisiBank.ts`).  Returns the successor state
and `some message` when the method throws; every mutation of `this` made
before the throw (in particular the `++this._currentIntegrationId` at the
start of the iframe branch) is kept in the successor state. -/
def activate (s : State) (raw : RawOptions) : State × Option String :=
  match validateOptions raw with
  | Except.error e => (s, some e)
  | Except.ok o =>
    if o.type = "iframe" then
      let s1 := { s with currentIntegrationId := s.currentIntegrationId + 1 }
      match o.container with
      | none => (s1, some "A container must be specified when type is iframe")
      | some none => (s1, some "Invalid container specified")
      | some (some k) =>
        let c := getCaller s1 k
        let r := populateContainer s1.selectedUsername o c.display c.iframe
          s1.currentIntegrationId s1.freshNode
        ({ s1 with
            callerContainers :=
              setCaller s1.callerContainers k { display := r.1, iframe := r.2.1 }
            freshNode := r.2.2
            integrations := setKey s1.integrations s1.currentIntegrationId o },
         none)
    else if o.type = "overlay" then
      let oc := s.overlayContainer.getD { display := "", iframe := none }
      let oc := { oc with display := "block" }
      let r := populateContainer s.selectedUsername o oc.display oc.iframe 0 s.freshNode
      ({ s with
          overlayContainer := some { display := r.1, iframe := r.2.1 }
          freshNode := r.2.2
          integrations := setKey s.integrations 0 o },
       none)
    else
      match o.openPosition with
      | none => (s, some "A position must be specified when type is modal")
      | some pos =>
        let mc := s.modalContainer.getD
          { display := "", pointerEvents := "", left := 0, top := 0, iframe := none }
        let mc := { mc with
          display := "block", pointerEvents := "all", left := pos.1, top := pos.2 }
        let r := populateContainer s.selectedUsername o mc.display mc.iframe 1 s.freshNode
        ({ s with
            modalContainer := some { mc with display := r.1, iframe := r.2.1 }
            freshNode := r.2.2
            integrations := setKey s.integrations 1 o },
         none)

/-- `_desactivateOverlay` (lines 408-416): hide `#risibank-overlay` if it
exists in the document. -/
def hideOverlay (s : State) : State :=
  match s.overlayContainer with
  | none => s
  | some oc => { s with overlayContainer := some { oc with display := "none" } }

/-- `_desactivateModal` (lines 418-425): hide `#risibank-modal` and disable
its pointer events, if it exists in the document. -/
def hideModal (s : State) : State :=
  match s.modalContainer with
  | none => s
  | some mc =>
      { s with modalContainer := some { mc with display := "none", pointerEvents := "none" } }

/-- `_desactivateIFrame` (lines 395-406): re-resolve the stored container;
if it resolves, clear its contents and delete the registry entry (if it
does not resolve, return leaving the entry in place, as the code does). -/
def desactivateIFrame (s : State) (o : NormOptions) (id : Nat) : State :=
  match o.container with
  | some (some k) =>
      let c := getCaller s k
      { s with
          callerContainers := setCaller s.callerContainers k { c with iframe := none }
          integrations := eraseKey id s.integrations }
  | _ => s

/-- `desactivate` for one concrete id (lines 373-393). -/
def desactivateId (s : State) (id : Nat) : State :=
  match lookupKey id s.integrations with
  | none => s
  | some o =>
      if o.type = "iframe" then desactivateIFrame s o id
      else if o.type = "overlay" then hideOverlay s
      else if o.type = "modal" then hideModal s
      else s

/-- `desactivate` (lines 364-393).  With no id, the code iterates the live
key set of `this._integrations`, recursing on each id; since deactivation
only ever removes the id being processed, this equals folding the
one-id deactivation over the snapshot of the keys. -/
def desactivate (s : State) (id : Option Nat) : State :=
  match id with
  | none => (s.integrations.map Prod.fst).foldl desactivateId s
  | some i => desactivateId s i

/-- The `selectedUsername` setter (lines 437-452): a non-string (modelled as
`none`) clears the username and removes the storage key; a string is stored
in the instance and persisted. -/
def setSelectedUsername (s : State) (username : Option String) : State :=
  match username with
  | none => { s with selectedUsername := none, storage := none }
  | some u => { s with selectedUsername := some u, storage := some u }

/-- The overlay container is hidden (or was never created): its
`style.display` is `none` whenever it exists. -/
def ovHidden (s : State) : Prop :=
  ∀ oc, s.overlayContainer = some oc → oc.display = "none"

/-- The modal container is hidden and inert (or was never created). -/
def mdHidden (s : State) : Prop :=
  ∀ mc, s.modalContainer = some mc → mc.display = "none" ∧ mc.pointerEvents = "none"

/-- Caller container `k` holds no iframe (its contents were cleared), if the
controller has written it at all. -/
def callerCleared (s : State) (k : Nat) : Prop :=
  ∀ c, lookupKey k s.callerContainers = some c → c.iframe = none

/-- One character of the username validation class `[a-zA-Z0-9\][_-]`. -/
def usernameCharOk (c : Char) : Bool :=
  c.isAlpha || c.isDigit || c == ']' || c == '[' || c == '_' || c == '-'

/-- The constructor's validity check `/^[a-zA-Z0-9\][_-]+$/i` on the saved
value: one or more characters of the class, spanning the whole string
(`$` modelled as strict end of string). -/
def usernameValid (saved : String) : Bool :=
  !saved.data.isEmpty && saved.data.all usernameCharOk

/-- The constructor (lines 43-74): empty registry, no containers, id counter
at 2, and the username loaded from storage only when it passes the
validity check. -/
def initState (storage : Option String) : State :=
  { integrations := []
    overlayContainer := none
    modalContainer := none
    currentIntegrationId := 2
    selectedUsername :=
      (match storage with
       | some saved => if usernameValid saved then some saved else none
       | none => none)
    callerContainers := []
    freshNode := 0
    storage := storage }

/-- Inbound `postMessage` payload.  `type` is `none` when the field is
absent; `media` is an opaque token. -/
structure MessageData where
  type : Option String
  id : Nat
  username : Option String
  media : Nat
deriving DecidableEq

/-- An inbound cross-document message event. -/
structure MessageEvent where
  origin : String
  data : Option MessageData
deriving DecidableEq

/-- A recorded invocation of a user callback, with the payload fields the
router passes (`id`, `type`, `media`). -/
inductive CallEvent where
  | selectMedia (callback : Nat) (id : Nat) (msgType : String) (media : Nat)
  | copyMedia (callback : Nat) (id : Nat) (msgType : String) (media : Nat)
deriving DecidableEq

/-- `/^risibank/` applied to the message type. -/
def matchesRisibank (t : String) : Bool :=
  "risibank".data.isPrefixOf t.data

/-- The kind dispatch of `_onIFrameMessage` (lines 310-358), reached only
after the trust checks. -/
def dispatchMessage (s : State) (t : String) (d : MessageData) :
    State × List CallEvent :=
  if t = "risibank-closed" then (desactivateId s d.id, [])
  else if t = "risibank-username-selected" then
    (setSelectedUsername s d.username, [])
  else if t = "risibank-username-cleared" then
    (setSelectedUsername s none, [])
  else if t = "risibank-media-copy" then
    match lookupKey d.id s.integrations with
    | some o =>
        match o.onCopyMedia with
        | some cb => (s, [CallEvent.copyMedia cb d.id t d.media])
        | none => (s, [])
    | none => (s, [])
  else if t = "risibank-media-selected" then
    match lookupKey d.id s.integrations with
    | some o =>
        let calls := [CallEvent.selectMedia o.onSelectMedia d.id t d.media]
        if o.type = "overlay" ∨ o.type = "modal" then
          (desactivateId s d.id, calls)
        else (s, calls)
    | none => (s, [])
  else (s, [])

/-- `_onIFrameMessage` (lines 296-359): discard when the payload has no
truthy `type` or the type does not start with `risibank`; discard when the
origin is not exactly `Constants.RISIBANK_URL`; otherwise dispatch.
Returns the successor state and the callback invocations performed. -/
def onIFrameMessage (s : State) (event : MessageEvent) : State × List CallEvent :=
  match event.data with
  | none => (s, [])
  | some d =>
    match d.type with
    | none => (s, [])
    | some t =>
      if t = "" then (s, [])
      else if !matchesRisibank t then (s, [])
      else if event.origin != RISIBANK_URL then (s, [])
      else dispatchMessage s t d

/-- `UI.adjustPositionForWindowBounds` (lines 502-523 of `UI.ts`), with the
window dimensions passed explicitly. -/
def adjustPositionForWindowBounds (x y width height margin
    windowWidth windowHeight : Int) : Int × Int :=
  let x := if x + width + margin > windowWidth then windowWidth - width - margin else x
  let x := if x < margin then margin else x
  let y := if y + height + margin > windowHeight then windowHeight - height - margin else y
  let y := if y < margin then margin else y
  (x, y)

/-- The embed URL exactly as §6 of the specification words it:
`<base>/embed?id=<n>&theme=<t>&allowUsernameSelection=<bool>&showCopyButton=<bool>&mediaSize=<s>&navbarSize=<s>&defaultTab=<t>&showNSFW=<bool>[&showCloseButton=true][&username=<u>]`,
the `showCloseButton=true` segment present exactly when the mode is overlay
or modal, and the `username` segment present exactly when
`allowUsernameSelection` is true and a username is currently set. -/
def specEmbedUrl (selectedUsername : Option String) (o : NormOptions)
    (n : Nat) : String :=
  RISIBANK_URL ++ "/embed?id=" ++ toString n
    ++ "&theme=" ++ o.theme
    ++ "&allowUsernameSelection=" ++ boolStr o.allowUsernameSelection
    ++ "&showCopyButton=" ++ boolStr o.showCopyButton
    ++ "&mediaSize=" ++ o.mediaSize
    ++ "&navbarSize=" ++ o.navbarSize
    ++ "&defaultTab=" ++ o.defaultTab
    ++ "&showNSFW=" ++ boolStr o.showNSFW
    ++ (if o.type = "overlay" ∨ o.type = "modal" then "&showCloseButton=true" else "")
    ++ (if o.allowUsernameSelection then
          match selectedUsername with
          | some u => "&username=" ++ u
          | none => ""
        else "")

/-- One step of a caller-visible trace: an `activate` call or a
`desactivate` call. -/
inductive TraceOp where
  | act (raw : RawOptions)
  | deact (id : Option Nat)
deriving DecidableEq

/-- Run a trace of API calls and collect, in order, the integration ids
assigned by the successful iframe-mode activations. -/
def runOps : State → List TraceOp → State × List Nat
  | s, [] => (s, [])
  | s, TraceOp.act raw :: rest =>
      let r := activate s raw
      let assigned : List Nat :=
        match r.2, validateOptions raw with
        | none, Except.ok o =>
            if o.type = "iframe" then [r.1.currentIntegrationId] else []
        | _, _ => []
      let rec_ := runOps r.1 rest
      (rec_.1, assigned ++ rec_.2)
  | s, TraceOp.deact id :: rest => runOps (desactivate s id) rest

/-! ### Concrete instances used by witnesses and counterexamples -/

/-- A minimal overlay activation request. -/
def rawOverlay : RawOptions := { type := some "overlay", onSelectMedia := some 7 }

/-- State after one overlay activation from a fresh instance. -/
def stateOverlay : State := (activate (initState none) rawOverlay).1

/-- A well-formed `media-selected` message whose origin is the browser
serialization of the RisiBank origin, without the trailing slash. -/
def eventNoSlash : MessageEvent :=
  { origin := "https://risibank.fr"
    data := some { type := some "risibank-media-selected", id := 0, username := none, media := 99 } }

/-- An iframe activation request with no container. -/
def rawNoContainer : RawOptions := { type := some "iframe", onSelectMedia := some 0 }

/-- A well-formed iframe activation request (container resolves to element 5). -/
def rawIframeOk : RawOptions :=
  { type := some "iframe", container := some (some 5), onSelectMedia := some 0 }

/-- An activation request whose `theme` is present but is the empty string. -/
def rawEmptyTheme : RawOptions :=
  { type := some "overlay", theme := some "", onSelectMedia := some 0 }

/-- The options `rawEmptyTheme` normalizes to. -/
def normEmptyTheme : NormOptions :=
  { type := "overlay", container := none, openPosition := none, theme := "light"
    mediaSize := "md", navbarSize := "md", defaultTab := "top", showNSFW := true
    allowUsernameSelection := true, showCopyButton := false
    onSelectMedia := 0, onCopyMedia := none }

/-- The modal activation request of claim C10. -/
def rawModal10 : RawOptions :=
  { type := some "modal", openPosition := some (10, 10), onSelectMedia := some 0 }

/-- The embed URL produced by `rawModal10` from a fresh instance. -/
def modal10Url : String :=
  "https://risibank.fr//embed?id=1&theme=light&allowUsernameSelection=true&showCopyButton=false&mediaSize=md&navbarSize=md&defaultTab=top&showNSFW=true&showCloseButton=true"

/-- The modal container produced by `rawModal10` from a fresh instance. -/
def modal10Container : ModalContainer :=
  { display := "block", pointerEvents := "all", left := 10, top := 10,
    iframe := some { nodeId := 0, src := modal10Url, dataHash := "[\"light\",true,false,\"md\",\"md\",\"top\",\"modal\"]" } }

/-- The normalized options stored for the overlay integration of
`stateMixed` below. -/
def normOverlay7 : NormOptions :=
  { type := "overlay", container := none, openPosition := none, theme := "light"
    mediaSize := "md", navbarSize := "md", defaultTab := "top", showNSFW := true
    allowUsernameSelection := true, showCopyButton := false
    onSelectMedia := 7, onCopyMedia := none }

/-- The normalized options stored for the iframe integration of
`stateMixed` below. -/
def normIframe8 : NormOptions :=
  { type := "iframe", container := some (some 5), openPosition := none, theme := "light"
    mediaSize := "md", navbarSize := "md", defaultTab := "top", showNSFW := true
    allowUsernameSelection := true, showCopyButton := false
    onSelectMedia := 8, onCopyMedia := none }

/-- A state holding one overlay integration (id 0, callback 7) and one
iframe integration (id 3, callback 8, container element 5). -/
def stateMixed : State :=
  (activate stateOverlay
    { type := some "iframe", container := some (some 5), onSelectMedia := some 8 }).1

/-- The overlay activation request of the C4 witness with a changed theme. -/
def rawOverlayDark : RawOptions :=
  { type := some "overlay", theme := some "dark", onSelectMedia := some 7 }

/-- The iframe element in the overlay container of `stateOverlay`. -/
def overlayIframe0 : IFrameEl :=
  { nodeId := 0
    src := "https://risibank.fr//embed?id=0&theme=light&allowUsernameSelection=true&showCopyButton=false&mediaSize=md&navbarSize=md&defaultTab=top&showNSFW=true&showCloseButton=true"
    dataHash := "[\"light\",true,false,\"md\",\"md\",\"top\",\"overlay\"]" }

/-- The options `rawOverlayDark` normalizes to. -/
def normOverlayDark : NormOptions :=
  { normOverlay7 with theme := "dark" }

/-- The trace of the C6 witness: a successful iframe activation, a
deactivate-all, two more iframe activations (the middle one failing for
lack of a container). -/
def opsC6 : List TraceOp :=
  [TraceOp.act rawIframeOk, TraceOp.deact none, TraceOp.act rawIframeOk,
   TraceOp.act rawNoContainer, TraceOp.act rawIframeOk]

/-! ### Claim C1 -/

/-- Claim C1: the message router dispatches an inbound message
(deactivation, username update, or callback invocation) only when
`event.origin` is exactly the string `https://risibank.fr/` — the value of
`Constants.RISIBANK_URL`, which ends in a trailing slash.  Every message
with any other origin, in particular the serialization
`https://risibank.fr` that a browser produces for this origin, is
discarded: no callback is invoked and the registry, the containers and the
username are unchanged. -/
theorem C1_origin_gate (s : State) (ev : MessageEvent)
    (h : ev.origin ≠ "https://risibank.fr/") :
    onIFrameMessage s ev = (s, []) ∧ RISIBANK_URL = "https://risibank.fr/" := by
  refine ⟨?_, rfl⟩
  have hb : (ev.origin != RISIBANK_URL) = true := by
    simpa [RISIBANK_URL, bne_iff_ne] using h
  unfold onIFrameMessage
  cases hd : ev.data with
  | none => rfl
  | some d =>
    cases hdt : d.type with
    | none => simp [hdt]
    | some t =>
      by_cases h1 : t = ""
      · simp [hdt, h1]
      · by_cases h2 : matchesRisibank t = true
        · simp [hdt, h1, h2, hb]
        · simp [hdt, h1, h2]

/-- Witness for C1: a concrete registered overlay integration and a
well-formed `media-selected` message whose origin lacks the trailing
slash; the message is discarded. -/
theorem C1_origin_gate_witness :
    eventNoSlash.origin ≠ "https://risibank.fr/" ∧
    onIFrameMessage stateOverlay eventNoSlash = (stateOverlay, []) :=
  ⟨by decide, (C1_origin_gate stateOverlay eventNoSlash (by decide)).1⟩

/-! ### Claim C2 -/

/-- Counterexample to claim C2 as stated: `activate` on an iframe request
with no container throws, but the id counter has already been advanced
from 2 to 3, so the state has mutated; the next successful iframe
activation receives id 4, not the id 3 it would have received had the
failing call never happened. -/
theorem C2_counterexample :
    (activate (initState none) rawNoContainer).2
        = some "A container must be specified when type is iframe"
  ∧ (initState none).currentIntegrationId = 2
  ∧ (activate (initState none) rawNoContainer).1.currentIntegrationId = 3
  ∧ (activate (initState none) rawNoContainer).1 ≠ initState none
  ∧ (activate (initState none) rawIframeOk).1.integrations.map Prod.fst = [3]
  ∧ (activate (activate (initState none) rawNoContainer).1 rawIframeOk).1.integrations.map Prod.fst = [4] := by
  decide

/-- Claim C2 amended: on every input on which `activate` throws, no iframe
is inserted into any container, no registry entry is created, and no other
field of the state changes — except that when the failure is the missing or
unresolvable container of an iframe-typed request, the integration id
counter has already been advanced by one (so the next successful iframe
activation receives a different id than it would have received had the
failing call never happened). -/
theorem C2_amended (s : State) (raw : RawOptions) (s' : State) (e : String)
    (h : activate s raw = (s', some e)) :
    s'.integrations = s.integrations
  ∧ s'.overlayContainer = s.overlayContainer
  ∧ s'.modalContainer = s.modalContainer
  ∧ s'.callerContainers = s.callerContainers
  ∧ s'.freshNode = s.freshNode
  ∧ s'.selectedUsername = s.selectedUsername
  ∧ s'.storage = s.storage
  ∧ (s'.currentIntegrationId = s.currentIntegrationId
      ∨ (s'.currentIntegrationId = s.currentIntegrationId + 1
          ∧ (e = "A container must be specified when type is iframe"
             ∨ e = "Invalid container specified"))) := by
  unfold activate at h
  cases hv : validateOptions raw with
  | error msg =>
      simp only [hv] at h
      injection h with h1 h2
      subst h1
      simp
  | ok o =>
      simp only [hv] at h
      by_cases ht : o.type = "iframe"
      · rw [if_pos ht] at h
        cases hc : o.container with
        | none =>
            simp only [hc] at h
            injection h with h1 h2
            subst h1
            injection h2 with h3
            subst h3
            simp
        | some c =>
            cases c with
            | none =>
                simp only [hc] at h
                injection h with h1 h2
                subst h1
                injection h2 with h3
                subst h3
                simp
            | some k =>
                simp only [hc] at h
                exact Option.noConfusion (congrArg Prod.snd h)
      · rw [if_neg ht] at h
        by_cases hov : o.type = "overlay"
        · rw [if_pos hov] at h
          exact Option.noConfusion (congrArg Prod.snd h)
        · rw [if_neg hov] at h
          cases hp : o.openPosition with
          | none =>
              simp only [hp] at h
              injection h with h1 h2
              subst h1
              injection h2 with h3
              subst h3
              simp
          | some pos =>
              simp only [hp] at h
              exact Option.noConfusion (congrArg Prod.snd h)

/-- Witness for C2 amended, at the concrete failing iframe request with a
missing container. -/
theorem C2_amended_witness :
    (activate (initState none) rawNoContainer).1.integrations = (initState none).integrations
  ∧ (activate (initState none) rawNoContainer).1.overlayContainer = (initState none).overlayContainer
  ∧ (activate (initState none) rawNoContainer).1.modalContainer = (initState none).modalContainer
  ∧ (activate (initState none) rawNoContainer).1.callerContainers = (initState none).callerContainers
  ∧ (activate (initState none) rawNoContainer).1.freshNode = (initState none).freshNode
  ∧ (activate (initState none) rawNoContainer).1.selectedUsername = (initState none).selectedUsername
  ∧ (activate (initState none) rawNoContainer).1.storage = (initState none).storage
  ∧ ((activate (initState none) rawNoContainer).1.currentIntegrationId = (initState none).currentIntegrationId
      ∨ ((activate (initState none) rawNoContainer).1.currentIntegrationId = (initState none).currentIntegrationId + 1
          ∧ ("A container must be specified when type is iframe"
                = "A container must be specified when type is iframe"
             ∨ "A container must be specified when type is iframe"
                = "Invalid container specified"))) :=
  C2_amended (initState none) rawNoContainer (activate (initState none) rawNoContainer).1
    "A container must be specified when type is iframe" (by decide)

/-! ### Claim C3 -/

/-- Claim C3: a trusted `risibank-media-selected` message addressed to id 0,
where id 0 holds a registered overlay integration, invokes that
integration's `onSelectMedia` exactly once with the payload
(id, type, media) and hides the overlay container, retaining the registry
entry; the same message addressed to a registered iframe integration's id
invokes its `onSelectMedia` exactly once but performs no deactivation: the
state — iframe container contents and registry entry included — is
unchanged. -/
theorem C3_media_selected :
    (∀ (s : State) (d : MessageData) (o : NormOptions) (oc : OverlayContainer),
        lookupKey 0 s.integrations = some o → o.type = "overlay" →
        s.overlayContainer = some oc →
        d.type = some "risibank-media-selected" → d.id = 0 →
        onIFrameMessage s { origin := RISIBANK_URL, data := some d }
          = ({ s with overlayContainer := some { oc with display := "none" } },
             [CallEvent.selectMedia o.onSelectMedia 0 "risibank-media-selected" d.media]))
  ∧ (∀ (s : State) (d : MessageData) (o : NormOptions) (i : Nat),
        lookupKey i s.integrations = some o → o.type = "iframe" →
        d.type = some "risibank-media-selected" → d.id = i →
        onIFrameMessage s { origin := RISIBANK_URL, data := some d }
          = (s, [CallEvent.selectMedia o.onSelectMedia i "risibank-media-selected" d.media])) := by
  constructor
  · rintro s ⟨dt, did, du, dm⟩ o oc hl ht hov hdt hid
    simp only at hdt hid
    subst hdt
    subst hid
    have hm : (!matchesRisibank "risibank-media-selected") = false := by decide
    have hne : (RISIBANK_URL != RISIBANK_URL) = false := by decide
    simp [onIFrameMessage, dispatchMessage, desactivateId, hideOverlay, hm, hne, hl, ht, hov]
  · rintro s ⟨dt, did, du, dm⟩ o i hl ht hdt hid
    simp only at hdt hid
    subst hdt
    subst hid
    have hm : (!matchesRisibank "risibank-media-selected") = false := by decide
    have hne : (RISIBANK_URL != RISIBANK_URL) = false := by decide
    simp [onIFrameMessage, dispatchMessage, hm, hne, hl, ht]

/-- Witness for C3: both parts applied to `stateMixed` and concrete
`media-selected` messages. -/
theorem C3_media_selected_witness :
    onIFrameMessage stateMixed
        { origin := RISIBANK_URL
          data := some { type := some "risibank-media-selected", id := 0, username := none, media := 99 } }
      = ({ stateMixed with
            overlayContainer := some { display := "none", iframe := (stateMixed.overlayContainer.getD { display := "", iframe := none }).iframe } },
         [CallEvent.selectMedia 7 0 "risibank-media-selected" 99])
  ∧ onIFrameMessage stateMixed
        { origin := RISIBANK_URL
          data := some { type := some "risibank-media-selected", id := 3, username := none, media := 77 } }
      = (stateMixed, [CallEvent.selectMedia 8 3 "risibank-media-selected" 77]) :=
  ⟨C3_media_selected.1 stateMixed
      { type := some "risibank-media-selected", id := 0, username := none, media := 99 }
      normOverlay7
      ((stateMixed.overlayContainer.getD { display := "", iframe := none }))
      (by decide) (by decide) (by decide) rfl rfl,
   C3_media_selected.2 stateMixed
      { type := some "risibank-media-selected", id := 3, username := none, media := 77 }
      normIframe8 3 (by decide) (by decide) rfl rfl⟩

/-! ### Claim C4 -/

/-- `populateContainer` on a container already holding an iframe with the
requested hash only sets the display to `block` and keeps the element. -/
theorem populateContainer_same_hash (u : Option String) (o : NormOptions)
    (display : String) (f : IFrameEl) (i fresh : Nat)
    (h : f.dataHash = hashOptions o) :
    populateContainer u o display (some f) i fresh = ("block", some f, fresh) := by
  simp [populateContainer, h]

/-- `populateContainer` on a container holding an iframe with a different
hash clears it and inserts a fresh element tagged with the new hash. -/
theorem populateContainer_new_hash (u : Option String) (o : NormOptions)
    (display : String) (f : IFrameEl) (i fresh : Nat)
    (h : f.dataHash ≠ hashOptions o) :
    populateContainer u o display (some f) i fresh
      = (display, some (freshIFrame u o i fresh), fresh + 1) := by
  simp [populateContainer, freshIFrame, h]

/-- `populateContainer` on an empty container inserts a fresh iframe
tagged with the hash. -/
theorem populateContainer_none (u : Option String) (o : NormOptions)
    (display : String) (i fresh : Nat) :
    populateContainer u o display none i fresh
      = (display, some (freshIFrame u o i fresh), fresh + 1) := by
  simp [populateContainer, freshIFrame]

/-- The overlay branch of `activate`, as a closed-form equation. -/
theorem activate_overlay_spec (s : State) (raw : RawOptions) (o : NormOptions)
    (hv : validateOptions raw = Except.ok o) (ht : o.type = "overlay") :
    activate s raw =
      (let oc := s.overlayContainer.getD { display := "", iframe := none }
       let r := populateContainer s.selectedUsername o "block" oc.iframe 0 s.freshNode
       ({ s with
           overlayContainer := some { display := r.1, iframe := r.2.1 }
           freshNode := r.2.2
           integrations := setKey s.integrations 0 o },
        none)) := by
  unfold activate
  simp only [hv]
  rw [if_neg (by rw [ht]; decide), if_pos ht]

/-- The modal branch of `activate`, as a closed-form equation. -/
theorem activate_modal_spec (s : State) (raw : RawOptions) (o : NormOptions)
    (p : Int × Int) (hv : validateOptions raw = Except.ok o)
    (ht : o.type = "modal") (hp : o.openPosition = some p) :
    activate s raw =
      (let mc := s.modalContainer.getD
         { display := "", pointerEvents := "", left := 0, top := 0, iframe := none }
       let r := populateContainer s.selectedUsername o "block" mc.iframe 1 s.freshNode
       ({ s with
           modalContainer := some { display := r.1, pointerEvents := "all", left := p.1, top := p.2, iframe := r.2.1 }
           freshNode := r.2.2
           integrations := setKey s.integrations 1 o },
        none)) := by
  unfold activate
  simp only [hv]
  rw [if_neg (by rw [ht]; decide), if_neg (by rw [ht]; decide)]
  simp only [hp]

/-- After a successful overlay activation the overlay container is visible
and holds an iframe tagged with the hash of the normalized options. -/
theorem activate_overlay_iframe_hash (s : State) (raw : RawOptions)
    (o : NormOptions) (hv : validateOptions raw = Except.ok o)
    (ht : o.type = "overlay") :
    ∃ f : IFrameEl,
      (activate s raw).1.overlayContainer = some { display := "block", iframe := some f }
      ∧ f.dataHash = hashOptions o := by
  cases hf : (s.overlayContainer.getD { display := "", iframe := none }).iframe with
  | none =>
      refine ⟨freshIFrame s.selectedUsername o 0 s.freshNode, ?_, rfl⟩
      simp only [activate_overlay_spec s raw o hv ht, hf, populateContainer_none]
  | some prev =>
      by_cases hh : prev.dataHash = hashOptions o
      · refine ⟨prev, ?_, hh⟩
        simp only [activate_overlay_spec s raw o hv ht, hf,
          populateContainer_same_hash _ _ _ _ _ _ hh]
      · refine ⟨freshIFrame s.selectedUsername o 0 s.freshNode, ?_, rfl⟩
        simp only [activate_overlay_spec s raw o hv ht, hf,
          populateContainer_new_hash _ _ _ _ _ _ hh]

/-- After a successful modal activation the modal container holds an iframe
tagged with the hash of the normalized options. -/
theorem activate_modal_iframe_hash (s : State) (raw : RawOptions)
    (o : NormOptions) (p : Int × Int) (hv : validateOptions raw = Except.ok o)
    (ht : o.type = "modal") (hp : o.openPosition = some p) :
    ∃ f : IFrameEl,
      (activate s raw).1.modalContainer
        = some { display := "block", pointerEvents := "all",
                 left := p.1, top := p.2, iframe := some f }
      ∧ f.dataHash = hashOptions o := by
  cases hf : (s.modalContainer.getD
      { display := "", pointerEvents := "", left := 0, top := 0, iframe := none }).iframe with
  | none =>
      refine ⟨freshIFrame s.selectedUsername o 1 s.freshNode, ?_, rfl⟩
      simp only [activate_modal_spec s raw o p hv ht hp, hf, populateContainer_none]
  | some prev =>
      by_cases hh : prev.dataHash = hashOptions o
      · refine ⟨prev, ?_, hh⟩
        simp only [activate_modal_spec s raw o p hv ht hp, hf,
          populateContainer_same_hash _ _ _ _ _ _ hh]
      · refine ⟨freshIFrame s.selectedUsername o 1 s.freshNode, ?_, rfl⟩
        simp only [activate_modal_spec s raw o p hv ht hp, hf,
          populateContainer_new_hash _ _ _ _ _ _ hh]

/-- Claim C4: re-activating overlay (or modal) with options whose
normalized content hash equals that of the iframe already in the singleton
container does not replace the iframe element — same DOM node, same
`data-hash`, source not reloaded, no fresh node consumed — and only keeps
the container visible; re-activating with a changed hash (e.g. a different
theme) removes the old iframe and inserts a fresh element tagged with the
new hash, which differs from the old element's hash. -/
theorem C4_hash_reuse :
    (∀ (s : State) (raw1 raw2 : RawOptions) (o1 o2 : NormOptions) (f1 : IFrameEl),
      validateOptions raw1 = Except.ok o1 → o1.type = "overlay" →
      validateOptions raw2 = Except.ok o2 → o2.type = "overlay" →
      (activate s raw1).1.overlayContainer = some { display := "block", iframe := some f1 } →
      (hashOptions o2 = hashOptions o1 →
          activate (activate s raw1).1 raw2
            = ({ (activate s raw1).1 with
                  overlayContainer := some { display := "block", iframe := some f1 }
                  integrations := setKey (activate s raw1).1.integrations 0 o2 },
               none))
      ∧ (hashOptions o2 ≠ hashOptions o1 →
          (activate (activate s raw1).1 raw2).1.overlayContainer
            = some { display := "block"
                     iframe := some (freshIFrame (activate s raw1).1.selectedUsername o2 0 (activate s raw1).1.freshNode) }
          ∧ f1.dataHash = hashOptions o1))
  ∧ (∀ (s : State) (raw1 raw2 : RawOptions) (o1 o2 : NormOptions)
       (p1 p2 : Int × Int) (mc1 : ModalContainer) (f1 : IFrameEl),
      validateOptions raw1 = Except.ok o1 → o1.type = "modal" →
      o1.openPosition = some p1 →
      validateOptions raw2 = Except.ok o2 → o2.type = "modal" →
      o2.openPosition = some p2 →
      (activate s raw1).1.modalContainer = some mc1 → mc1.iframe = some f1 →
      (hashOptions o2 = hashOptions o1 →
          (activate (activate s raw1).1 raw2).1.modalContainer
            = some { display := "block", pointerEvents := "all",
                     left := p2.1, top := p2.2, iframe := some f1 }
          ∧ (activate (activate s raw1).1 raw2).1.freshNode
              = (activate s raw1).1.freshNode)
      ∧ (hashOptions o2 ≠ hashOptions o1 →
          (activate (activate s raw1).1 raw2).1.modalContainer
            = some { display := "block", pointerEvents := "all",
                     left := p2.1, top := p2.2,
                     iframe := some (freshIFrame (activate s raw1).1.selectedUsername o2 1 (activate s raw1).1.freshNode) }
          ∧ f1.dataHash = hashOptions o1)) := by
  constructor
  · intro s raw1 raw2 o1 o2 f1 hv1 ht1 hv2 ht2 h1
    obtain ⟨f, hf, hfh⟩ := activate_overlay_iframe_hash s raw1 o1 hv1 ht1
    rw [h1] at hf
    have hff : f1 = f := by
      injection hf with hoc
      injection hoc with _ hif
      exact Option.some.inj hif
    subst hff
    constructor
    · intro hh
      rw [activate_overlay_spec _ raw2 o2 hv2 ht2]
      simp only [h1, Option.getD_some]
      rw [populateContainer_same_hash _ _ _ _ _ _ (by rw [hfh, hh])]
    · intro hh
      rw [activate_overlay_spec _ raw2 o2 hv2 ht2]
      simp only [h1, Option.getD_some]
      rw [populateContainer_new_hash _ _ _ _ _ _ (by rw [hfh]; exact fun he => hh he.symm)]
      exact ⟨rfl, hfh⟩
  · intro s raw1 raw2 o1 o2 p1 p2 mc1 f1 hv1 ht1 hp1 hv2 ht2 hp2 h1 hif
    obtain ⟨f, hf, hfh⟩ := activate_modal_iframe_hash s raw1 o1 p1 hv1 ht1 hp1
    rw [h1] at hf
    have hmc : mc1 = { display := "block", pointerEvents := "all", left := p1.1, top := p1.2, iframe := some f } := Option.some.inj hf
    have hff : f1 = f := by
      have := congrArg ModalContainer.iframe hmc
      rw [hif] at this
      exact Option.some.inj this
    subst hff
    constructor
    · intro hh
      rw [activate_modal_spec _ raw2 o2 p2 hv2 ht2 hp2]
      simp only [h1, Option.getD_some, hmc]
      rw [populateContainer_same_hash _ _ _ _ _ _ (by rw [hfh, hh])]
      exact ⟨rfl, rfl⟩
    · intro hh
      rw [activate_modal_spec _ raw2 o2 p2 hv2 ht2 hp2]
      simp only [h1, Option.getD_some, hmc]
      rw [populateContainer_new_hash _ _ _ _ _ _ (by rw [hfh]; exact fun he => hh he.symm)]
      exact ⟨rfl, hfh⟩

/-- Witness for C4: re-activating the overlay with identical options keeps
the same iframe element; re-activating with a different theme replaces it
with a fresh element tagged with the new hash. -/
theorem C4_hash_reuse_witness :
    activate stateOverlay rawOverlay
      = ({ stateOverlay with
            overlayContainer := some { display := "block", iframe := some overlayIframe0 }
            integrations := setKey stateOverlay.integrations 0 normOverlay7 },
         none)
  ∧ ((activate stateOverlay rawOverlayDark).1.overlayContainer
      = some { display := "block",
               iframe := some (freshIFrame stateOverlay.selectedUsername normOverlayDark 0 stateOverlay.freshNode) }
      ∧ overlayIframe0.dataHash = hashOptions normOverlay7) :=
  ⟨(C4_hash_reuse.1 (initState none) rawOverlay rawOverlay normOverlay7 normOverlay7
      overlayIframe0 rfl rfl rfl rfl (by decide)).1 rfl,
   (C4_hash_reuse.1 (initState none) rawOverlay rawOverlayDark normOverlay7 normOverlayDark
      overlayIframe0 rfl rfl rfl rfl (by decide)).2 (by decide)⟩

/-! ### Claim C5 -/

/-- Claim C5: for every integration, the embed URL set as the iframe source
is exactly the base URL followed by `/embed` and the normalized option
values serialized in the documented parameter order, followed by
`&showCloseButton=true` if and only if the type is overlay or modal,
followed by `&username=<u>` if and only if `allowUsernameSelection` is true
and a username is currently set: the implementation URL builder agrees with
the specification's URL shape on every input. -/
theorem C5_embed_url (u : Option String) (o : NormOptions) (n : Nat) :
    getEmbedUrl u o n = specEmbedUrl u o n := by
  unfold getEmbedUrl specEmbedUrl
  by_cases ht : o.type = "overlay" ∨ o.type = "modal"
  all_goals cases u
  all_goals cases ha : o.allowUsernameSelection
  all_goals apply String.ext
  all_goals simp [ht, ha, String.data_append, List.append_assoc]

/-! ### Claim C6 -/

/-- `activate` never decreases the id counter. -/
theorem activate_cid_le (s : State) (raw : RawOptions) :
    s.currentIntegrationId ≤ (activate s raw).1.currentIntegrationId := by
  unfold activate
  split
  · exact Nat.le_refl _
  · split
    · split <;> exact Nat.le_succ _
    · split
      · exact Nat.le_refl _
      · split <;> exact Nat.le_refl _

/-- An iframe-typed `activate` call — successful or not — advances the id
counter by exactly one. -/
theorem activate_iframe_cid (s : State) (raw : RawOptions) (o : NormOptions)
    (hv : validateOptions raw = Except.ok o) (ht : o.type = "iframe") :
    (activate s raw).1.currentIntegrationId = s.currentIntegrationId + 1 := by
  unfold activate
  simp only [hv]
  rw [if_pos ht]
  split <;> rfl

/-- Deactivating one id never changes the id counter. -/
theorem desactivateId_cid (s : State) (i : Nat) :
    (desactivateId s i).currentIntegrationId = s.currentIntegrationId := by
  unfold desactivateId desactivateIFrame hideOverlay hideModal
  repeat' split
  all_goals rfl

/-- Folding one-id deactivation over a key list never changes the counter. -/
theorem foldDes_cid (l : List Nat) (s : State) :
    (l.foldl desactivateId s).currentIntegrationId = s.currentIntegrationId := by
  induction l generalizing s with
  | nil => rfl
  | cons a l ih => rw [List.foldl_cons, ih, desactivateId_cid]

/-- `desactivate` never changes the id counter. -/
theorem desactivate_cid (s : State) (id : Option Nat) :
    (desactivate s id).currentIntegrationId = s.currentIntegrationId := by
  cases id with
  | none => exact foldDes_cid _ s
  | some i => exact desactivateId_cid s i

/-- Along any trace, the counter is monotone, every assigned iframe id is
strictly above the counter at the start and at most the counter at the end,
and the assigned ids are strictly increasing. -/
theorem runOps_bounds (ops : List TraceOp) (s : State) :
    s.currentIntegrationId ≤ (runOps s ops).1.currentIntegrationId
  ∧ (∀ i ∈ (runOps s ops).2,
       s.currentIntegrationId < i ∧ i ≤ (runOps s ops).1.currentIntegrationId)
  ∧ List.Pairwise (· < ·) (runOps s ops).2 := by
  induction ops generalizing s with
  | nil => exact ⟨Nat.le_refl _, by simp [runOps], by simp [runOps]⟩
  | cons op rest ih =>
    cases op with
    | deact id =>
        have h := ih (desactivate s id)
        have hc := desactivate_cid s id
        simp only [runOps]
        exact ⟨by omega,
          fun i hi => ⟨by have := (h.2.1 i hi).1; omega, (h.2.1 i hi).2⟩,
          h.2.2⟩
    | act raw =>
        have h := ih (activate s raw).1
        have hle : s.currentIntegrationId ≤ (activate s raw).1.currentIntegrationId :=
          activate_cid_le s raw
        cases herr : (activate s raw).2 with
        | some e =>
            simp only [runOps, herr]
            exact ⟨by omega,
              fun i hi => ⟨by have := (h.2.1 i hi).1; omega, (h.2.1 i hi).2⟩,
              h.2.2⟩
        | none =>
            cases hv : validateOptions raw with
            | error e =>
                simp only [runOps, herr, hv]
                exact ⟨by omega,
                  fun i hi => ⟨by have := (h.2.1 i hi).1; omega, (h.2.1 i hi).2⟩,
                  h.2.2⟩
            | ok o =>
                by_cases ht : o.type = "iframe"
                · have hcid := activate_iframe_cid s raw o hv ht
                  simp only [runOps, herr, hv, if_pos ht, List.singleton_append]
                  refine ⟨by omega, ?_, ?_⟩
                  · intro i hi
                    rcases List.mem_cons.mp hi with hq | hq
                    · subst hq
                      exact ⟨by omega, h.1⟩
                    · exact ⟨by have := (h.2.1 i hq).1; omega, (h.2.1 i hq).2⟩
                  · rw [List.pairwise_cons]
                    exact ⟨fun i hi => by have := (h.2.1 i hi).1; omega, h.2.2⟩
                · simp only [runOps, herr, hv, if_neg ht]
                  exact ⟨by omega,
                    fun i hi => ⟨by have := (h.2.1 i hi).1; omega,
                      by simpa using (h.2.1 i (by simpa using hi)).2⟩,
                    by simpa using h.2.2⟩

/-- Claim C6: along every interleaving of `activate` calls (iframe-mode or
otherwise, successful or throwing) with arbitrary `desactivate` calls, the
ids assigned to the successful iframe-mode activations are pairwise
distinct and strictly increasing in order of assignment (so an id once
assigned is never assigned again), and every assigned id is strictly
greater than 2. -/
theorem C6_monotonic_ids (ops : List TraceOp) :
    List.Pairwise (· < ·) (runOps (initState none) ops).2
  ∧ ∀ i ∈ (runOps (initState none) ops).2, 2 < i := by
  obtain ⟨h1, h2, h3⟩ := runOps_bounds ops (initState none)
  exact ⟨h3, fun i hi => (h2 i hi).1⟩

/-- Witness for C6: the concrete trace assigns ids 3, 4, 6 — strictly
increasing, all above 2, none reused — with the failing activation
consuming id 5. -/
theorem C6_monotonic_ids_witness :
    (runOps (initState none) opsC6).2 = [3, 4, 6]
  ∧ List.Pairwise (· < ·) (runOps (initState none) opsC6).2
  ∧ 2 < 3 :=
  ⟨by decide, (C6_monotonic_ids opsC6).1, (C6_monotonic_ids opsC6).2 3 (by decide)⟩

/-! ### Claim C7 -/

/-- Counterexample to claim C7 as stated: `theme` present but equal to the
empty string (a falsy value that is not one of the documented enum values)
does not make `activate` throw; the empty string is silently replaced by
the default `light` and the activation succeeds. -/
theorem C7_counterexample :
    rawEmptyTheme.theme = some ""
  ∧ "" ∉ (["light", "dark", "light-old", "dark-old"] : List String)
  ∧ validateOptions rawEmptyTheme = Except.ok normEmptyTheme
  ∧ (activate (initState none) rawEmptyTheme).2 = none :=
  ⟨rfl, by decide, rfl, rfl⟩

/-- Claim C7 amended: a field among type/theme/mediaSize/navbarSize/defaultTab
that is present with a non-empty value outside its enum makes `activate`
throw `InvalidConfiguration`; a field that is absent or present with the
empty string (JavaScript's only falsy string) receives the documented
default. -/
theorem C7_amended :
    (∀ raw o, validateOptions raw = Except.ok o →
        o.type = orDefault raw.type "iframe"
      ∧ o.theme = orDefault raw.theme "light"
      ∧ o.mediaSize = orDefault raw.mediaSize "md"
      ∧ o.navbarSize = orDefault raw.navbarSize "md"
      ∧ o.defaultTab = orDefault raw.defaultTab "top")
  ∧ (∀ raw t, raw.type = some t → t ≠ "" →
        t ∉ (["iframe", "overlay", "modal"] : List String) →
        validateOptions raw = Except.error "Invalid type")
  ∧ (∀ raw t, orDefault raw.type "iframe" ∈ (["iframe", "overlay", "modal"] : List String) →
        raw.theme = some t → t ≠ "" →
        t ∉ (["light", "dark", "light-old", "dark-old"] : List String) →
        validateOptions raw = Except.error "Unsupported theme")
  ∧ (∀ raw t, orDefault raw.type "iframe" ∈ (["iframe", "overlay", "modal"] : List String) →
        orDefault raw.theme "light" ∈ (["light", "dark", "light-old", "dark-old"] : List String) →
        raw.mediaSize = some t → t ≠ "" →
        t ∉ (["sm", "md", "lg"] : List String) →
        validateOptions raw = Except.error "Unsupported media size. Allowed sizes are sm, md and lg")
  ∧ (∀ raw t, orDefault raw.type "iframe" ∈ (["iframe", "overlay", "modal"] : List String) →
        orDefault raw.theme "light" ∈ (["light", "dark", "light-old", "dark-old"] : List String) →
        orDefault raw.mediaSize "md" ∈ (["sm", "md", "lg"] : List String) →
        raw.navbarSize = some t → t ≠ "" →
        t ∉ (["sm", "md", "lg"] : List String) →
        validateOptions raw = Except.error "Unsupported navbar size. Allowed sizes are sm, md and lg")
  ∧ (∀ raw t, orDefault raw.type "iframe" ∈ (["iframe", "overlay", "modal"] : List String) →
        orDefault raw.theme "light" ∈ (["light", "dark", "light-old", "dark-old"] : List String) →
        orDefault raw.mediaSize "md" ∈ (["sm", "md", "lg"] : List String) →
        orDefault raw.navbarSize "md" ∈ (["sm", "md", "lg"] : List String) →
        raw.defaultTab = some t → t ≠ "" →
        t ∉ (["search", "fav", "hot", "top", "new", "rand"] : List String) →
        validateOptions raw = Except.error "Unsupported default tab. Allowed values are search, fav, hot, top, new and rand") := by
  refine ⟨?_, ?_, ?_, ?_, ?_, ?_⟩
  · intro raw o h
    simp only [validateOptions] at h
    split at h
    · split at h
      · split at h
        · split at h
          · split at h
            · split at h
              · exact Except.noConfusion h
              · injection h with h1
                subst h1
                exact ⟨rfl, rfl, rfl, rfl, rfl⟩
            · exact Except.noConfusion h
          · exact Except.noConfusion h
        · exact Except.noConfusion h
      · exact Except.noConfusion h
    · exact Except.noConfusion h
  · intro raw t hr hne hmem
    have ho : orDefault raw.type "iframe" = t := by simp [orDefault, hr, hne]
    simp only [validateOptions]
    rw [if_neg (by rw [ho]; exact hmem)]
  · intro raw t htype hr hne hmem
    have ho : orDefault raw.theme "light" = t := by simp [orDefault, hr, hne]
    simp only [validateOptions]
    rw [if_pos htype, if_neg (by rw [ho]; exact hmem)]
  · intro raw t htype htheme hr hne hmem
    have ho : orDefault raw.mediaSize "md" = t := by simp [orDefault, hr, hne]
    simp only [validateOptions]
    rw [if_pos htype, if_pos htheme, if_neg (by rw [ho]; exact hmem)]
  · intro raw t htype htheme hms hr hne hmem
    have ho : orDefault raw.navbarSize "md" = t := by simp [orDefault, hr, hne]
    simp only [validateOptions]
    rw [if_pos htype, if_pos htheme, if_pos hms, if_neg (by rw [ho]; exact hmem)]
  · intro raw t htype htheme hms hns hr hne hmem
    have ho : orDefault raw.defaultTab "top" = t := by simp [orDefault, hr, hne]
    simp only [validateOptions]
    rw [if_pos htype, if_pos htheme, if_pos hms, if_pos hns,
      if_neg (by rw [ho]; exact hmem)]

/-- Witness for C7 amended: the empty-string theme is defaulted to `light`,
while the non-empty invalid theme `blue` makes `activate` throw. -/
theorem C7_amended_witness :
    normEmptyTheme.theme = orDefault rawEmptyTheme.theme "light"
  ∧ validateOptions { rawEmptyTheme with theme := some "blue" }
      = Except.error "Unsupported theme" :=
  ⟨(C7_amended.1 rawEmptyTheme normEmptyTheme rfl).2.1,
   C7_amended.2.2.1 { rawEmptyTheme with theme := some "blue" } "blue"
     (by decide) rfl (by decide) (by decide)⟩

/-! ### Claim C8 -/

/-- Looking up an erased key gives nothing. -/
theorem lookupKey_eraseKey_self {A : Type} (i : Nat) (l : List (Nat × A)) :
    lookupKey i (eraseKey i l) = none := by
  induction l with
  | nil => rfl
  | cons a l ih =>
      obtain ⟨k, v⟩ := a
      by_cases hk : k = i
      · simp [eraseKey, hk, ih]
      · simp [eraseKey, lookupKey, hk, ih]

/-- Erasing one key does not affect lookups at other keys. -/
theorem lookupKey_eraseKey_ne {A : Type} (i j : Nat) (l : List (Nat × A))
    (h : i ≠ j) :
    lookupKey i (eraseKey j l) = lookupKey i l := by
  induction l with
  | nil => rfl
  | cons a l ih =>
      obtain ⟨k, v⟩ := a
      by_cases hk : k = j
      · subst hk
        simp [eraseKey, lookupKey, ih, Ne.symm h]
      · simp [eraseKey, lookupKey, hk, ih]

/-- A key with an entry is among the registry's keys. -/
theorem lookupKey_mem {A : Type} (i : Nat) (l : List (Nat × A)) (v : A)
    (h : lookupKey i l = some v) : i ∈ l.map Prod.fst := by
  induction l with
  | nil => exact absurd h (by simp [lookupKey])
  | cons a l ih =>
      obtain ⟨k, w⟩ := a
      by_cases hk : k = i
      · simp [hk]
      · simp only [lookupKey, if_neg hk] at h
        simp [ih h]

/-- A key with an entry yields a pair of the association list. -/
theorem lookupKey_pair_mem {A : Type} (i : Nat) (l : List (Nat × A)) (v : A)
    (h : lookupKey i l = some v) : (i, v) ∈ l := by
  induction l with
  | nil => exact absurd h (by simp [lookupKey])
  | cons a l ih =>
      obtain ⟨k, w⟩ := a
      by_cases hk : k = i
      · subst hk
        simp only [lookupKey, if_pos rfl] at h
        injection h with h
        subst h
        exact List.mem_cons_self _ _
      · simp only [lookupKey, if_neg hk] at h
        exact List.mem_cons_of_mem _ (ih h)

/-- Field-level description of `_desactivateOverlay`. -/
theorem hideOverlay_parts (s : State) :
    (hideOverlay s).integrations = s.integrations
  ∧ (hideOverlay s).modalContainer = s.modalContainer
  ∧ (hideOverlay s).callerContainers = s.callerContainers
  ∧ (hideOverlay s).overlayContainer
      = s.overlayContainer.map (fun oc => { oc with display := "none" }) := by
  unfold hideOverlay
  split
  · next ho => exact ⟨rfl, rfl, rfl, by rw [ho]; rfl⟩
  · next oc ho => exact ⟨rfl, rfl, rfl, by rw [ho]; rfl⟩

/-- Field-level description of `_desactivateModal`. -/
theorem hideModal_parts (s : State) :
    (hideModal s).integrations = s.integrations
  ∧ (hideModal s).overlayContainer = s.overlayContainer
  ∧ (hideModal s).callerContainers = s.callerContainers
  ∧ (hideModal s).modalContainer
      = s.modalContainer.map
          (fun mc => { mc with display := "none", pointerEvents := "none" }) := by
  unfold hideModal
  split
  · next ho => exact ⟨rfl, rfl, rfl, by rw [ho]; rfl⟩
  · next mc ho => exact ⟨rfl, rfl, rfl, by rw [ho]; rfl⟩

/-- Field-level description of `_desactivateIFrame` on a resolvable
container. -/
theorem desactivateIFrame_parts (s : State) (o : NormOptions) (j k : Nat)
    (hk : o.container = some (some k)) :
    (desactivateIFrame s o j).integrations = eraseKey j s.integrations
  ∧ (desactivateIFrame s o j).overlayContainer = s.overlayContainer
  ∧ (desactivateIFrame s o j).modalContainer = s.modalContainer
  ∧ (desactivateIFrame s o j).callerContainers
      = (k, { getCaller s k with iframe := none }) :: eraseKey k s.callerContainers := by
  unfold desactivateIFrame
  rw [hk]
  exact ⟨rfl, rfl, rfl, rfl⟩

/-- One-id deactivation is the identity, a hide of a singleton container,
or an iframe removal, according to the addressed registry entry. -/
theorem desactivateId_cases (s : State) (j : Nat) :
    desactivateId s j = s
  ∨ (∃ o, lookupKey j s.integrations = some o ∧ o.type = "overlay"
        ∧ desactivateId s j = hideOverlay s)
  ∨ (∃ o, lookupKey j s.integrations = some o ∧ o.type = "modal"
        ∧ desactivateId s j = hideModal s)
  ∨ (∃ o k, lookupKey j s.integrations = some o ∧ o.type = "iframe"
        ∧ o.container = some (some k)
        ∧ desactivateId s j = desactivateIFrame s o j) := by
  unfold desactivateId
  split
  · exact Or.inl rfl
  · next o hl =>
      split
      · next ht =>
          cases hc : o.container with
          | none =>
              refine Or.inl ?_
              unfold desactivateIFrame
              rw [hc]
          | some c =>
              cases c with
              | none =>
                  refine Or.inl ?_
                  unfold desactivateIFrame
                  rw [hc]
              | some k =>
                  exact Or.inr (Or.inr (Or.inr ⟨o, k, hl, ht, hc, rfl⟩))
      · next ht =>
          split
          · next hov => exact Or.inr (Or.inl ⟨o, hl, hov, rfl⟩)
          · next hov =>
              split
              · next hmd => exact Or.inr (Or.inr (Or.inl ⟨o, hl, hmd, rfl⟩))
              · next hmd => exact Or.inl rfl

/-- The registry after one-id deactivation: unchanged or with that one key
erased. -/
theorem desactivateId_int_cases (s : State) (j : Nat) :
    (desactivateId s j).integrations = s.integrations
  ∨ (desactivateId s j).integrations = eraseKey j s.integrations := by
  rcases desactivateId_cases s j with h | ⟨o, _, _, h⟩ | ⟨o, _, _, h⟩ | ⟨o, k, _, _, hk, h⟩
  · exact Or.inl (by rw [h])
  · exact Or.inl (by rw [h, (hideOverlay_parts s).1])
  · exact Or.inl (by rw [h, (hideModal_parts s).1])
  · exact Or.inr (by rw [h, (desactivateIFrame_parts s o j k hk).1])

/-- The overlay container after one-id deactivation: unchanged or hidden. -/
theorem desactivateId_ov_cases (s : State) (j : Nat) :
    (desactivateId s j).overlayContainer = s.overlayContainer
  ∨ (desactivateId s j).overlayContainer
      = s.overlayContainer.map (fun oc => { oc with display := "none" }) := by
  rcases desactivateId_cases s j with h | ⟨o, _, _, h⟩ | ⟨o, _, _, h⟩ | ⟨o, k, _, _, hk, h⟩
  · exact Or.inl (by rw [h])
  · exact Or.inr (by rw [h, (hideOverlay_parts s).2.2.2])
  · exact Or.inl (by rw [h, (hideModal_parts s).2.1])
  · exact Or.inl (by rw [h, (desactivateIFrame_parts s o j k hk).2.1])

/-- The modal container after one-id deactivation: unchanged or hidden. -/
theorem desactivateId_md_cases (s : State) (j : Nat) :
    (desactivateId s j).modalContainer = s.modalContainer
  ∨ (desactivateId s j).modalContainer
      = s.modalContainer.map
          (fun mc => { mc with display := "none", pointerEvents := "none" }) := by
  rcases desactivateId_cases s j with h | ⟨o, _, _, h⟩ | ⟨o, _, _, h⟩ | ⟨o, k, _, _, hk, h⟩
  · exact Or.inl (by rw [h])
  · exact Or.inl (by rw [h, (hideOverlay_parts s).2.1])
  · exact Or.inr (by rw [h, (hideModal_parts s).2.2.2])
  · exact Or.inl (by rw [h, (desactivateIFrame_parts s o j k hk).2.2.1])

/-- A caller container after one-id deactivation: its lookup is unchanged,
or it has been cleared. -/
theorem desactivateId_caller_cases (s : State) (j k' : Nat) :
    lookupKey k' (desactivateId s j).callerContainers
        = lookupKey k' s.callerContainers
  ∨ (∀ c, lookupKey k' (desactivateId s j).callerContainers = some c →
        c.iframe = none) := by
  rcases desactivateId_cases s j with h | ⟨o, _, _, h⟩ | ⟨o, _, _, h⟩ | ⟨o, k, _, _, hk, h⟩
  · exact Or.inl (by rw [h])
  · exact Or.inl (by rw [h, (hideOverlay_parts s).2.2.1])
  · exact Or.inl (by rw [h, (hideModal_parts s).2.2.1])
  · rw [h, (desactivateIFrame_parts s o j k hk).2.2.2]
    by_cases hkk : k = k'
    · right
      intro c hc
      simp only [lookupKey] at hc
      rw [if_pos hkk] at hc
      injection hc with hc
      rw [← hc]
    · left
      simp only [lookupKey]
      rw [if_neg hkk]
      exact lookupKey_eraseKey_ne k' k _ (fun he => hkk he.symm)

/-- One-id deactivation preserves a hidden overlay. -/
theorem desactivateId_pres_ovHidden (s : State) (j : Nat) (h : ovHidden s) :
    ovHidden (desactivateId s j) := by
  rcases desactivateId_ov_cases s j with hc | hc <;> intro oc hoc <;> rw [hc] at hoc
  · exact h oc hoc
  · cases ho : s.overlayContainer with
    | none => rw [ho] at hoc; exact absurd hoc (by simp)
    | some oc0 =>
        rw [ho] at hoc
        simp only [Option.map_some'] at hoc
        injection hoc with hoc
        rw [← hoc]

/-- One-id deactivation preserves a hidden modal. -/
theorem desactivateId_pres_mdHidden (s : State) (j : Nat) (h : mdHidden s) :
    mdHidden (desactivateId s j) := by
  rcases desactivateId_md_cases s j with hc | hc <;> intro mc hmc <;> rw [hc] at hmc
  · exact h mc hmc
  · cases ho : s.modalContainer with
    | none => rw [ho] at hmc; exact absurd hmc (by simp)
    | some mc0 =>
        rw [ho] at hmc
        simp only [Option.map_some'] at hmc
        injection hmc with hmc
        rw [← hmc]
        exact ⟨rfl, rfl⟩

/-- One-id deactivation preserves a cleared caller container. -/
theorem desactivateId_pres_callerCleared (s : State) (j k : Nat)
    (h : callerCleared s k) : callerCleared (desactivateId s j) k := by
  rcases desactivateId_caller_cases s j k with hc | hc
  · intro c hcc
    rw [hc] at hcc
    exact h c hcc
  · exact hc

/-- An entry visible after one-id deactivation was already there before. -/
theorem desactivateId_lookup_mono (s : State) (j i : Nat) (o : NormOptions)
    (h : lookupKey i (desactivateId s j).integrations = some o) :
    lookupKey i s.integrations = some o := by
  rcases desactivateId_int_cases s j with hc | hc <;> rw [hc] at h
  · exact h
  · by_cases hij : i = j
    · subst hij
      rw [lookupKey_eraseKey_self] at h
      exact absurd h (by simp)
    · rw [lookupKey_eraseKey_ne i j _ hij] at h
      exact h

/-- A missing entry stays missing across one-id deactivation. -/
theorem desactivateId_lookup_none (s : State) (j i : Nat)
    (h : lookupKey i s.integrations = none) :
    lookupKey i (desactivateId s j).integrations = none := by
  rcases desactivateId_int_cases s j with hc | hc <;> rw [hc]
  · exact h
  · by_cases hij : i = j
    · subst hij
      exact lookupKey_eraseKey_self _ _
    · rw [lookupKey_eraseKey_ne i j _ hij]
      exact h

/-- Deactivating one id leaves lookups at other ids unchanged. -/
theorem desactivateId_lookup_other (s : State) (j i : Nat) (hij : i ≠ j) :
    lookupKey i (desactivateId s j).integrations = lookupKey i s.integrations := by
  rcases desactivateId_int_cases s j with hc | hc <;> rw [hc]
  exact lookupKey_eraseKey_ne i j _ hij

/-- A non-iframe entry survives any one-id deactivation. -/
theorem desactivateId_lookup_keep (s : State) (j i : Nat) (o : NormOptions)
    (hl : lookupKey i s.integrations = some o) (ht : o.type ≠ "iframe") :
    lookupKey i (desactivateId s j).integrations = some o := by
  rcases desactivateId_cases s j with h | ⟨o', _, _, h⟩ | ⟨o', _, _, h⟩ | ⟨o', k, hl', ht', hk, h⟩
  · rw [h]; exact hl
  · rw [h, (hideOverlay_parts s).1]; exact hl
  · rw [h, (hideModal_parts s).1]; exact hl
  · rw [h, (desactivateIFrame_parts s o' j k hk).1]
    by_cases hij : i = j
    · subst hij
      rw [hl] at hl'
      injection hl' with ho
      exact absurd (by rw [ho]; exact ht') ht
    · rw [lookupKey_eraseKey_ne i j _ hij]
      exact hl

/-- Deactivating an id whose entry is an overlay hides the overlay. -/
theorem desactivateId_overlay_hides (s : State) (j : Nat) (o : NormOptions)
    (hl : lookupKey j s.integrations = some o) (ht : o.type = "overlay") :
    ovHidden (desactivateId s j) := by
  have h : desactivateId s j = hideOverlay s := by
    unfold desactivateId
    simp only [hl]
    rw [if_neg (by rw [ht]; decide), if_pos ht]
  rw [h]
  intro oc hoc
  rw [(hideOverlay_parts s).2.2.2] at hoc
  cases ho : s.overlayContainer with
  | none => rw [ho] at hoc; exact absurd hoc (by simp)
  | some oc0 =>
      rw [ho] at hoc
      simp only [Option.map_some'] at hoc
      injection hoc with hoc
      rw [← hoc]

/-- Deactivating an id whose entry is a modal hides the modal. -/
theorem desactivateId_modal_hides (s : State) (j : Nat) (o : NormOptions)
    (hl : lookupKey j s.integrations = some o) (ht : o.type = "modal") :
    mdHidden (desactivateId s j) := by
  have h : desactivateId s j = hideModal s := by
    unfold desactivateId
    simp only [hl]
    rw [if_neg (by rw [ht]; decide), if_neg (by rw [ht]; decide), if_pos ht]
  rw [h]
  intro mc hmc
  rw [(hideModal_parts s).2.2.2] at hmc
  cases ho : s.modalContainer with
  | none => rw [ho] at hmc; exact absurd hmc (by simp)
  | some mc0 =>
      rw [ho] at hmc
      simp only [Option.map_some'] at hmc
      injection hmc with hmc
      rw [← hmc]
      exact ⟨rfl, rfl⟩

/-- Deactivating an id whose entry is an iframe with a resolvable container
removes the registry entry and clears the container. -/
theorem desactivateId_iframe_removes (s : State) (j k : Nat) (o : NormOptions)
    (hl : lookupKey j s.integrations = some o) (ht : o.type = "iframe")
    (hk : o.container = some (some k)) :
    lookupKey j (desactivateId s j).integrations = none
  ∧ callerCleared (desactivateId s j) k := by
  have h : desactivateId s j = desactivateIFrame s o j := by
    unfold desactivateId
    simp only [hl]
    rw [if_pos ht]
  rw [h]
  constructor
  · rw [(desactivateIFrame_parts s o j k hk).1]
    exact lookupKey_eraseKey_self _ _
  · intro c hc
    rw [(desactivateIFrame_parts s o j k hk).2.2.2] at hc
    simp only [lookupKey, if_true] at hc
    injection hc with hc
    rw [← hc]

/-- Deactivating an id with no registry entry is the identity. -/
theorem desactivateId_of_none (t : State) (i : Nat)
    (h : lookupKey i t.integrations = none) : desactivateId t i = t := by
  unfold desactivateId
  simp only [h]

/-- Hiding an already hidden (or absent) overlay is the identity. -/
theorem hideOverlay_id (s : State) (h : ovHidden s) : hideOverlay s = s := by
  unfold hideOverlay
  split
  · rfl
  · next oc ho =>
      have hd := h oc ho
      have hoc : ({ oc with display := "none" } : OverlayContainer) = oc := by
        cases oc
        simp_all
      rw [hoc, ← ho]

/-- Hiding an already hidden (or absent) modal is the identity. -/
theorem hideModal_id (s : State) (h : mdHidden s) : hideModal s = s := by
  unfold hideModal
  split
  · rfl
  · next mc ho =>
      have hd := h mc ho
      have hmc : ({ mc with display := "none", pointerEvents := "none" } : ModalContainer) = mc := by
        cases mc
        simp_all
      rw [hmc, ← ho]

/-- Folding one-id deactivation preserves a hidden overlay. -/
theorem foldDes_pres_ovHidden (L : List Nat) (s : State) (h : ovHidden s) :
    ovHidden (L.foldl desactivateId s) := by
  induction L generalizing s with
  | nil => exact h
  | cons a L ih => exact ih _ (desactivateId_pres_ovHidden s a h)

/-- Folding one-id deactivation preserves a hidden modal. -/
theorem foldDes_pres_mdHidden (L : List Nat) (s : State) (h : mdHidden s) :
    mdHidden (L.foldl desactivateId s) := by
  induction L generalizing s with
  | nil => exact h
  | cons a L ih => exact ih _ (desactivateId_pres_mdHidden s a h)

/-- Folding one-id deactivation preserves a cleared caller container. -/
theorem foldDes_pres_callerCleared (L : List Nat) (s : State) (k : Nat)
    (h : callerCleared s k) : callerCleared (L.foldl desactivateId s) k := by
  induction L generalizing s with
  | nil => exact h
  | cons a L ih => exact ih _ (desactivateId_pres_callerCleared s a k h)

/-- Folding one-id deactivation keeps missing entries missing. -/
theorem foldDes_lookup_none (L : List Nat) (s : State) (i : Nat)
    (h : lookupKey i s.integrations = none) :
    lookupKey i (L.foldl desactivateId s).integrations = none := by
  induction L generalizing s with
  | nil => exact h
  | cons a L ih => exact ih _ (desactivateId_lookup_none s a i h)

/-- Folding one-id deactivation keeps non-iframe entries intact. -/
theorem foldDes_lookup_keep (L : List Nat) (s : State) (i : Nat) (o : NormOptions)
    (hl : lookupKey i s.integrations = some o) (ht : o.type ≠ "iframe") :
    lookupKey i (L.foldl desactivateId s).integrations = some o := by
  induction L generalizing s with
  | nil => exact hl
  | cons a L ih => exact ih _ (desactivateId_lookup_keep s a i o hl ht)

/-- An entry visible after a fold of deactivations was there at the start. -/
theorem foldDes_lookup_mono (L : List Nat) (s : State) (i : Nat) (o : NormOptions)
    (h : lookupKey i (L.foldl desactivateId s).integrations = some o) :
    lookupKey i s.integrations = some o := by
  induction L generalizing s with
  | nil => exact h
  | cons a L ih => exact desactivateId_lookup_mono s a i o (ih _ h)

/-- Processing a key whose entry is an iframe with a resolvable container
removes the entry and clears the container, durably. -/
theorem foldDes_iframe_removed (L : List Nat) (s : State) (i k : Nat)
    (o : NormOptions) (hi : i ∈ L) (hl : lookupKey i s.integrations = some o)
    (ht : o.type = "iframe") (hk : o.container = some (some k)) :
    lookupKey i (L.foldl desactivateId s).integrations = none
  ∧ callerCleared (L.foldl desactivateId s) k := by
  induction L generalizing s with
  | nil => cases hi
  | cons a L ih =>
      rw [List.foldl_cons]
      by_cases hai : a = i
      · subst hai
        have hrem := desactivateId_iframe_removes s a k o hl ht hk
        exact ⟨foldDes_lookup_none L _ a hrem.1,
               foldDes_pres_callerCleared L _ k hrem.2⟩
      · rcases List.mem_cons.mp hi with he | hmem
        · exact absurd he.symm hai
        · have hl' : lookupKey i (desactivateId s a).integrations = some o := by
            rw [desactivateId_lookup_other s a i (fun he => hai he.symm)]
            exact hl
          exact ih (desactivateId s a) hmem hl'

/-- Processing a key whose entry is an overlay keeps the entry and leaves
the overlay hidden at the end of the fold. -/
theorem foldDes_overlay_kept (L : List Nat) (s : State) (i : Nat)
    (o : NormOptions) (hi : i ∈ L) (hl : lookupKey i s.integrations = some o)
    (ht : o.type = "overlay") :
    lookupKey i (L.foldl desactivateId s).integrations = some o
  ∧ ovHidden (L.foldl desactivateId s) := by
  induction L generalizing s with
  | nil => cases hi
  | cons a L ih =>
      rw [List.foldl_cons]
      by_cases hai : a = i
      · subst hai
        have hhid := desactivateId_overlay_hides s a o hl ht
        have hkeep := desactivateId_lookup_keep s a a o hl (by rw [ht]; decide)
        exact ⟨foldDes_lookup_keep L _ a o hkeep (by rw [ht]; decide),
               foldDes_pres_ovHidden L _ hhid⟩
      · rcases List.mem_cons.mp hi with he | hmem
        · exact absurd he.symm hai
        · have hl' : lookupKey i (desactivateId s a).integrations = some o := by
            rw [desactivateId_lookup_other s a i (fun he => hai he.symm)]
            exact hl
          exact ih (desactivateId s a) hmem hl'

/-- Processing a key whose entry is a modal keeps the entry and leaves the
modal hidden at the end of the fold. -/
theorem foldDes_modal_kept (L : List Nat) (s : State) (i : Nat)
    (o : NormOptions) (hi : i ∈ L) (hl : lookupKey i s.integrations = some o)
    (ht : o.type = "modal") :
    lookupKey i (L.foldl desactivateId s).integrations = some o
  ∧ mdHidden (L.foldl desactivateId s) := by
  induction L generalizing s with
  | nil => cases hi
  | cons a L ih =>
      rw [List.foldl_cons]
      by_cases hai : a = i
      · subst hai
        have hhid := desactivateId_modal_hides s a o hl ht
        have hkeep := desactivateId_lookup_keep s a a o hl (by rw [ht]; decide)
        exact ⟨foldDes_lookup_keep L _ a o hkeep (by rw [ht]; decide),
               foldDes_pres_mdHidden L _ hhid⟩
      · rcases List.mem_cons.mp hi with he | hmem
        · exact absurd he.symm hai
        · have hl' : lookupKey i (desactivateId s a).integrations = some o := by
            rw [desactivateId_lookup_other s a i (fun he => hai he.symm)]
            exact hl
          exact ih (desactivateId s a) hmem hl'

/-- A fold of one-id deactivations that are each the identity is the
identity. -/
theorem foldDes_id (L : List Nat) (s : State)
    (h : ∀ i, desactivateId s i = s) :
    L.foldl desactivateId s = s := by
  induction L with
  | nil => rfl
  | cons a L ih =>
      rw [List.foldl_cons, h a]
      exact ih

/-- Claim C8, stated for every state whose iframe-typed registry entries
carry a resolvable container — the invariant every entry registered through
a successful `activate` satisfies: `desactivate()` with no argument deactivates every
registered integration — iframe entries are removed and their containers
cleared, overlay and modal entries are retained with their containers
hidden — and calling `desactivate` again afterward with no argument, or
calling it on any state with an id that has no registry entry, is a silent
no-op that changes nothing (and the model throws nowhere). -/
theorem C8_desactivate_all (s : State)
    (H : ∀ i o, lookupKey i s.integrations = some o → o.type = "iframe" →
           ∃ k, o.container = some (some k)) :
    (∀ i o, lookupKey i s.integrations = some o →
        (o.type = "iframe" →
            lookupKey i (desactivate s none).integrations = none
          ∧ ∀ k, o.container = some (some k) →
              callerCleared (desactivate s none) k)
      ∧ (o.type = "overlay" →
            lookupKey i (desactivate s none).integrations = some o
          ∧ ovHidden (desactivate s none))
      ∧ (o.type = "modal" →
            lookupKey i (desactivate s none).integrations = some o
          ∧ mdHidden (desactivate s none)))
  ∧ desactivate (desactivate s none) none = desactivate s none
  ∧ (∀ (t : State) (i : Nat), lookupKey i t.integrations = none →
        desactivate t (some i) = t) := by
  have hdef : desactivate s none
      = (s.integrations.map Prod.fst).foldl desactivateId s := rfl
  refine ⟨?_, ?_, ?_⟩
  · intro i o hl
    have hmem : i ∈ s.integrations.map Prod.fst := lookupKey_mem i _ o hl
    refine ⟨?_, ?_, ?_⟩
    · intro ht
      obtain ⟨k, hk⟩ := H i o hl ht
      refine ⟨(foldDes_iframe_removed _ s i k o hmem hl ht hk).1, ?_⟩
      intro k' hk'
      rw [hk] at hk'
      injection hk' with hk'
      injection hk' with hk'
      subst hk'
      exact (foldDes_iframe_removed _ s i k o hmem hl ht hk).2
    · intro ht
      exact foldDes_overlay_kept _ s i o hmem hl ht
    · intro ht
      exact foldDes_modal_kept _ s i o hmem hl ht
  · have hQ : ∀ i, desactivateId (desactivate s none) i = desactivate s none := by
      intro i
      cases hlook : lookupKey i (desactivate s none).integrations with
      | none => exact desactivateId_of_none _ i hlook
      | some o =>
          have hso : lookupKey i s.integrations = some o := by
            rw [hdef] at hlook
            exact foldDes_lookup_mono _ s i o hlook
          have hmem : i ∈ s.integrations.map Prod.fst := lookupKey_mem i _ o hso
          by_cases ht1 : o.type = "iframe"
          · obtain ⟨k, hk⟩ := H i o hso ht1
            have hnone := (foldDes_iframe_removed _ s i k o hmem hso ht1 hk).1
            rw [← hdef] at hnone
            rw [hnone] at hlook
            exact absurd hlook (by simp)
          · by_cases ht2 : o.type = "overlay"
            · have hov := (foldDes_overlay_kept _ s i o hmem hso ht2).2
              rw [← hdef] at hov
              have heq : desactivateId (desactivate s none) i
                  = hideOverlay (desactivate s none) := by
                unfold desactivateId
                simp only [hlook]
                rw [if_neg (by rw [ht2]; decide), if_pos ht2]
              rw [heq]
              exact hideOverlay_id _ hov
            · by_cases ht3 : o.type = "modal"
              · have hmd := (foldDes_modal_kept _ s i o hmem hso ht3).2
                rw [← hdef] at hmd
                have heq : desactivateId (desactivate s none) i
                    = hideModal (desactivate s none) := by
                  unfold desactivateId
                  simp only [hlook]
                  rw [if_neg ht1, if_neg ht2, if_pos ht3]
                rw [heq]
                exact hideModal_id _ hmd
              · unfold desactivateId
                simp only [hlook]
                rw [if_neg ht1, if_neg ht2, if_neg ht3]
    exact foldDes_id _ _ hQ
  · intro t i h
    exact desactivateId_of_none t i h

/-- Witness for C8 at `stateMixed` (one overlay integration at id 0, one
iframe integration at id 3 with container element 5): deactivate-all
removes the iframe entry, retains the overlay entry, a second
deactivate-all changes nothing, and deactivating the unknown id 42 changes
nothing. -/
theorem C8_desactivate_all_witness :
    lookupKey 3 (desactivate stateMixed none).integrations = none
  ∧ lookupKey 0 (desactivate stateMixed none).integrations = some normOverlay7
  ∧ desactivate (desactivate stateMixed none) none = desactivate stateMixed none
  ∧ desactivate stateMixed (some 42) = stateMixed := by
  have H : ∀ i o, lookupKey i stateMixed.integrations = some o →
      o.type = "iframe" → ∃ k, o.container = some (some k) := by
    intro i o hl hty
    have hm := lookupKey_pair_mem i _ o hl
    rw [show stateMixed.integrations = [(3, normIframe8), (0, normOverlay7)] from by decide] at hm
    rcases List.mem_cons.mp hm with he | hm2
    · injection he with h1 h2
      subst h2
      exact ⟨5, rfl⟩
    · rcases List.mem_cons.mp hm2 with he | hm3
      · injection he with h1 h2
        subst h2
        exact absurd hty (by decide)
      · cases hm3
  have h := C8_desactivate_all stateMixed H
  exact ⟨(h.1 3 normIframe8 (by decide)).1 rfl |>.1,
         (h.1 0 normOverlay7 (by decide)).2.1 rfl |>.1,
         h.2.1,
         h.2.2 stateMixed 42 (by decide)⟩

/-! ### Claim C9 -/

/-- Counterexample to claim C9 as stated: the username `a b` (containing a
space, so not matching the restricted pattern) is assigned through the
setter and persisted to storage, yet a freshly constructed instance reading
that same storage ignores it and starts with no username, ≠ `some "a b"`. -/
theorem C9_counterexample :
    (setSelectedUsername (initState none) (some "a b")).selectedUsername = some "a b"
  ∧ (setSelectedUsername (initState none) (some "a b")).storage = some "a b"
  ∧ (initState (setSelectedUsername (initState none) (some "a b")).storage).selectedUsername = none
  ∧ (none : Option String) ≠ some "a b" := by
  decide

/-- Claim C9 amended: a username matching the restricted
alphanumeric/underscore/hyphen/bracket pattern that is assigned through the
setter is persisted and observed unchanged by a freshly constructed
instance reading the same storage; a stored string not matching the pattern
is ignored by a fresh instance, which starts with no username. -/
theorem C9_amended :
    (∀ (s : State) (u : String), usernameValid u = true →
        (setSelectedUsername s (some u)).storage = some u
      ∧ (initState (setSelectedUsername s (some u)).storage).selectedUsername = some u)
  ∧ (∀ v : String, usernameValid v = false →
        (initState (some v)).selectedUsername = none) := by
  constructor
  · intro s u hu
    exact ⟨rfl, by simp [setSelectedUsername, initState, hu]⟩
  · intro v hv
    simp [initState, hv]

/-- Witness for C9 amended: the valid username `Bob_42` round-trips through
storage; the invalid stored value `a b` is ignored on reload. -/
theorem C9_amended_witness :
    usernameValid "Bob_42" = true
  ∧ (initState (setSelectedUsername (initState none) (some "Bob_42")).storage).selectedUsername
      = some "Bob_42"
  ∧ usernameValid "a b" = false
  ∧ (initState (some "a b")).selectedUsername = none :=
  ⟨by decide,
   (C9_amended.1 (initState none) "Bob_42" (by decide)).2,
   by decide,
   C9_amended.2 "a b" (by decide)⟩

/-! ### Claim C10 -/

/-- Counterexample to claim C10 as stated: activating
`{type := modal, openPosition := (10, 10), onSelectMedia := fn}` places the
modal container at the raw coordinates (10, 10), while the position
adjuster (600×300 box, margin 25, e.g. a 1024×768 viewport) returns
(25, 25); the container's position is not the adjusted position. -/
theorem C10_counterexample :
    (activate (initState none) rawModal10).1.modalContainer.map (fun mc => (mc.left, mc.top))
      = some ((10 : Int), (10 : Int))
  ∧ adjustPositionForWindowBounds 10 10 600 300 25 1024 768 = ((25 : Int), (25 : Int))
  ∧ (((10 : Int), (10 : Int)) : Int × Int) ≠ ((25 : Int), (25 : Int)) := by
  decide

/-- Claim C10 amended: `activate` with
`{type := modal, openPosition := (10, 10), onSelectMedia := fn}` and no
other fields succeeds and produces the visible 600×300 modal container at
exactly the raw coordinates left = 10, top = 10 (`activate` applies no
viewport adjustment — the adjuster runs only when the caller computes
`openPosition` through the position helper), holding an iframe whose embed
URL carries `theme=light`, `mediaSize=md`, `navbarSize=md`,
`defaultTab=top`, `showNSFW=true`, `allowUsernameSelection=true`,
`showCopyButton=false` and `showCloseButton=true`. -/
theorem C10_amended :
    (activate (initState none) rawModal10).2 = none
  ∧ (activate (initState none) rawModal10).1.modalContainer = some modal10Container := by
  decide

end RisiBankSpec
